import Mathlib

/-!
Verification of the Conan recipe `conan/conanfile.py` of `aos_core_lib_cpp`.

The recipe is a declarative Python class `AosCoreLibCpp(ConanFile)`:

  settings   = "os", "compiler", "build_type", "arch"
  generators = "CMakeToolchain", "CMakeDeps"

  def requirements(self):
      self.requires("gtest/1.14.0")
      self.requires("openssl/3.2.1")

  def configure(self):
      self.options["openssl"].no_dso = False
      self.options["openssl"].shared = True

We embed the observable state of the recipe as a structure holding the
accumulated requirement list (ordered, as produced by successive `requires`
calls) and the accumulated option assignments (ordered triples of package,
option name and boolean value, as produced by successive option writes).
`requires` parses a Conan reference string "name/version" at its first
slash, exactly as the package manager does for these two references.
-/

namespace AosCoreLibCpp

/-- Splits a character list at the first `'/'`, returning the part before and
the part after; the whole list and `[]` when no slash occurs.  This models how
the package manager reads a Conan reference string `"name/version"`. -/
def splitAtSlash : List Char → List Char × List Char
  | [] => ([], [])
  | c :: cs =>
    if c = '/' then ([], cs)
    else
      let p := splitAtSlash cs
      (c :: p.1, p.2)

/-- Parses a Conan reference `"name/version"` into a `(name, version)` pair. -/
def parseRef (ref : String) : String × String :=
  let p := splitAtSlash ref.toList
  (String.mk p.1, String.mk p.2)

/-- The observable state of the recipe: the requirement list built by
`self.requires(...)` calls and the option assignments made through
`self.options[pkg].opt = value`, each in call order. -/
structure ConanState where
  requiresList : List (String × String)
  optionWrites : List (String × String × Bool)
deriving DecidableEq

/-- The empty recipe state, before any method of the class has run. -/
def initState : ConanState := ⟨[], []⟩

/-- `self.requires(ref)`: appends the `(name, version)` pair parsed from
`ref` to the requirement list. -/
def requires (st : ConanState) (ref : String) : ConanState :=
  { st with requiresList := st.requiresList ++ [parseRef ref] }

/-- The `requirements` method of `AosCoreLibCpp`
(`conanfile.py` lines 7-9): two `requires` calls. -/
def requirements (st : ConanState) : ConanState :=
  requires (requires st "gtest/1.14.0") "openssl/3.2.1"

/-- `self.options[pkg].opt = v`: records the option assignment. -/
def setOption (st : ConanState) (pkg opt : String) (v : Bool) : ConanState :=
  { st with optionWrites := st.optionWrites ++ [(pkg, opt, v)] }

/-- The `configure` method of `AosCoreLibCpp`
(`conanfile.py` lines 11-13): two boolean option writes on `openssl`. -/
def configure (st : ConanState) : ConanState :=
  setOption (setOption st "openssl" "no_dso" false) "openssl" "shared" true

/-- The effective value of option `opt` of package `pkg` in state `st`:
the last assignment wins; `none` when the option was never assigned. -/
def lookupOption (st : ConanState) (pkg opt : String) : Option Bool :=
  (st.optionWrites.reverse.find? (fun e => e.1 == pkg && e.2.1 == opt)).map
    (fun e => e.2.2)

/-- The `settings` class attribute of `AosCoreLibCpp` (`conanfile.py` line 4):
the platform axes the binary package id depends on. -/
def settings : List String := ["os", "compiler", "build_type", "arch"]

/-- The `generators` class attribute of `AosCoreLibCpp`
(`conanfile.py` line 5). -/
def generators : List String := ["CMakeToolchain", "CMakeDeps"]

/-- Runs a sequence of `requires` calls in order. -/
def applyRequires (st : ConanState) (refs : List String) : ConanState :=
  refs.foldl requires st

/-- The two reference strings passed to `requires` by the `requirements`
method, in source order. -/
def declaredRefs : List String := ["gtest/1.14.0", "openssl/3.2.1"]

/-- Splits a character list at every `'.'` into its dot-separated components
(adjacent or leading/trailing dots yield empty components). -/
def splitOnDot : List Char → List (List Char)
  | [] => [[]]
  | c :: cs =>
    if c = '.' then [] :: splitOnDot cs
    else
      match splitOnDot cs with
      | [] => [[c]]
      | g :: gs => (c :: g) :: gs

/-- A version identifier is valid when every dot-separated component is
non-empty and consists of decimal digits only. -/
def isValidVersion (v : String) : Bool :=
  (splitOnDot v.toList).all (fun c => !c.isEmpty && c.all Char.isDigit)

/-- `applyRequires` appends the parsed references, in order. -/
theorem applyRequires_requiresList (refs : List String) (st : ConanState) :
    (applyRequires st refs).requiresList =
      st.requiresList ++ refs.map parseRef := by
  induction refs generalizing st with
  | nil => simp [applyRequires]
  | cons r rs ih =>
    simp [applyRequires, requires] at ih ⊢
    rw [ih]
    simp

/-- Claim C1: the `requirements` method declares exactly two requirements,
`("gtest", "1.14.0")` and `("openssl", "3.2.1")`, in that order and no
others, each with a pinned version. -/
theorem requirements_exact :
    (requirements initState).requiresList =
      [("gtest", "1.14.0"), ("openssl", "3.2.1")] ∧
    (requirements initState).requiresList.length = 2 := by
  constructor <;> decide

/-- Claim C2: the `configure` method makes exactly two option assignments,
both on package `openssl` and both boolean: `no_dso := false` and
`shared := true`, and no others. -/
theorem configure_exact :
    (configure initState).optionWrites =
      [("openssl", "no_dso", false), ("openssl", "shared", true)] ∧
    (configure initState).optionWrites.length = 2 := by
  constructor <;> decide

/-- Claim C3: the package names in the requirement list produced by
`requirements` are pairwise distinct. -/
theorem requirements_names_nodup :
    ((requirements initState).requiresList.map Prod.fst).Nodup := by
  decide

/-- Claim C4: every package that receives an option assignment in `configure`
also occurs as a package name in the requirement list declared by
`requirements`. -/
theorem configure_packages_required
    (pkg opt : String) (v : Bool)
    (h : (pkg, opt, v) ∈ (configure initState).optionWrites) :
    pkg ∈ (requirements initState).requiresList.map Prod.fst := by
  have hw : (configure initState).optionWrites =
      [("openssl", "no_dso", false), ("openssl", "shared", true)] := by decide
  rw [hw] at h
  simp at h
  rcases h with ⟨hp, _⟩ | ⟨hp, _⟩ <;> subst hp <;> decide

/-- Witness for claim C4 at the first option assignment of `configure`. -/
theorem configure_packages_required_witness :
    ("openssl", "no_dso", false) ∈ (configure initState).optionWrites ∧
    "openssl" ∈ (requirements initState).requiresList.map Prod.fst :=
  ⟨by decide, configure_packages_required "openssl" "no_dso" false (by decide)⟩

/-- Claim C5: the manifest declares exactly the four platform axes
`os`, `compiler`, `build_type` and `arch`, in that order. -/
theorem settings_exact :
    settings = ["os", "compiler", "build_type", "arch"] ∧
    settings.length = 4 := by
  constructor <;> decide

/-- Claim C6: the manifest selects exactly the two generators
`CMakeToolchain` and `CMakeDeps`. -/
theorem generators_exact :
    generators = ["CMakeToolchain", "CMakeDeps"] ∧
    generators.length = 2 := by
  constructor <;> decide

/-- Claim C7: for any permutation of the sequence of `requires` calls made by
`requirements`, the resulting set of `(package, version)` pairs is the same
set, namely `{("gtest", "1.14.0"), ("openssl", "3.2.1")}`. -/
theorem requirements_order_irrelevant
    (l : List String) (h : l.Perm declaredRefs) :
    (applyRequires initState l).requiresList.toFinset =
      ({("gtest", "1.14.0"), ("openssl", "3.2.1")} :
        Finset (String × String)) := by
  rw [applyRequires_requiresList]
  have hperm : (l.map parseRef).Perm (declaredRefs.map parseRef) := h.map _
  have hinit : initState.requiresList = [] := rfl
  rw [hinit, List.nil_append]
  have hsub : (l.map parseRef).toFinset = (declaredRefs.map parseRef).toFinset := by
    apply Finset.ext
    intro x
    simp only [List.mem_toFinset]
    exact hperm.mem_iff
  rw [hsub]
  decide

/-- Witness for claim C7 at the reversed call order. -/
theorem requirements_order_irrelevant_witness :
    (["openssl/3.2.1", "gtest/1.14.0"] : List String).Perm declaredRefs ∧
    (applyRequires initState ["openssl/3.2.1", "gtest/1.14.0"]).requiresList.toFinset =
      ({("gtest", "1.14.0"), ("openssl", "3.2.1")} :
        Finset (String × String)) :=
  ⟨by decide,
   requirements_order_irrelevant ["openssl/3.2.1", "gtest/1.14.0"] (by decide)⟩

/-- Claim C8: every version string declared by `requirements` is a
dot-separated sequence of non-empty numeric components. -/
theorem requirements_versions_valid :
    ((requirements initState).requiresList.map Prod.snd).all isValidVersion
      = true := by
  decide

/-- Claim C9: `requirements` only appends its two requirement entries and
leaves all option assignments unchanged, and `configure` only assigns options
of package `openssl`, leaving the requirement list unchanged and the
effective option values of every other package unchanged. -/
theorem frame_effects (st : ConanState) (pkg opt : String)
    (h : pkg ≠ "openssl") :
    (requirements st).optionWrites = st.optionWrites ∧
    (requirements st).requiresList =
      st.requiresList ++ [("gtest", "1.14.0"), ("openssl", "3.2.1")] ∧
    (configure st).requiresList = st.requiresList ∧
    lookupOption (configure st) pkg opt = lookupOption st pkg opt := by
  refine ⟨rfl, ?_, rfl, ?_⟩
  · show (st.requiresList ++ [parseRef "gtest/1.14.0"]) ++
        [parseRef "openssl/3.2.1"] = _
    rw [List.append_assoc]
    rfl
  · have hne : ("openssl" == pkg) = false := by
      simp [beq_eq_false_iff_ne]
      exact fun hcontra => h hcontra.symm
    simp [lookupOption, configure, setOption, List.find?, hne]

/-- Witness for claim C9 at a concrete state and a non-`openssl` package. -/
theorem frame_effects_witness :
    ("gtest" : String) ≠ "openssl" ∧
    ((requirements initState).optionWrites = initState.optionWrites ∧
     (requirements initState).requiresList =
       initState.requiresList ++ [("gtest", "1.14.0"), ("openssl", "3.2.1")] ∧
     (configure initState).requiresList = initState.requiresList ∧
     lookupOption (configure initState) "gtest" "shared" =
       lookupOption initState "gtest" "shared") :=
  ⟨by decide, frame_effects initState "gtest" "shared" (by decide)⟩

/-- Claim C10: `requirements` and `configure` are deterministic and input
independent: from any two prior states, the entries `requirements` appends to
the requirement list are identical, and the option assignments `configure`
appends are identical. -/
theorem declarations_deterministic (st₁ st₂ : ConanState) :
    (requirements st₁).requiresList.drop st₁.requiresList.length =
      (requirements st₂).requiresList.drop st₂.requiresList.length ∧
    (configure st₁).optionWrites.drop st₁.optionWrites.length =
      (configure st₂).optionWrites.drop st₂.optionWrites.length := by
  constructor
  · show ((st₁.requiresList ++ [parseRef "gtest/1.14.0"]) ++
        [parseRef "openssl/3.2.1"]).drop st₁.requiresList.length = _
    rw [List.append_assoc, List.drop_left]
    show _ = ((st₂.requiresList ++ [parseRef "gtest/1.14.0"]) ++
        [parseRef "openssl/3.2.1"]).drop st₂.requiresList.length
    rw [List.append_assoc, List.drop_left]
  · show ((st₁.optionWrites ++ [("openssl", "no_dso", false)]) ++
        [("openssl", "shared", true)]).drop st₁.optionWrites.length = _
    rw [List.append_assoc, List.drop_left]
    show _ = ((st₂.optionWrites ++ [("openssl", "no_dso", false)]) ++
        [("openssl", "shared", true)]).drop st₂.optionWrites.length
    rw [List.append_assoc, List.drop_left]

end AosCoreLibCpp
